import Mathlib

/-!
Verification of the SerialInstrument repository (serialinstrument.py).

The source is a thin wrapper over an RS-232 serial port: a base class
SerialInstrument with line-oriented write/read/query, a classifier over
three static identity-string lists, a Multimeter with numeric response
parsing, and a PowerSupply with write-avoiding state caching.

Shallow embedding conventions:
* Serial I/O is modelled by explicit state passing.  A SerialState holds
  the log of raw strings handed to ser.write and the bytes currently in
  the input buffer; the instrument on the far end of the cable is a
  Device, a function from the write history to the bytes it places in
  the input buffer after the latest write.
* Python floats are modelled as rationals; all numeric literals in the
  claims (5.0, 6.0, 8.0, 9.0, 20.0, 1.23456, ...) are exact in both.
* Python exceptions are modelled with Except; the module global
  debug = True is modelled as a Bool definition.
* Power-supply protocol writes are modelled by the inductive PSWrite,
  one constructor per distinct command the power-supply methods emit.
-/

namespace SerialInstrument

/-- Module global from serialinstrument.py line 11: debug = True. -/
def debug : Bool := true

/-- Source line 34 default: line_terminator = a carriage return plus a
line feed. -/
def line_terminator : String := "\r\n"

/-- Model of Python str.strip with no argument: removes leading and
trailing whitespace characters. -/
def pyStrip (s : String) : String :=
  String.mk (((s.data.dropWhile Char.isWhitespace).reverse.dropWhile Char.isWhitespace).reverse)

/-- Splits a character list on every occurrence of sep, keeping empty
fields; the empty list yields one empty field, as Python str.split with
an explicit separator does. -/
def splitCharsOn (sep : Char) : List Char → List (List Char)
  | [] => [[]]
  | c :: cs =>
    match splitCharsOn sep cs with
    | [] => if c = sep then [[], []] else [[c]]
    | h :: t => if c = sep then [] :: h :: t else (c :: h) :: t

/-- Model of Python str.split with a one-character separator: fields in
order, empty fields kept, one (possibly empty) field when the separator
is absent. -/
def pySplit (s : String) (sep : Char) : List String :=
  (splitCharsOn sep s.data).map String.mk

/-- The serial port as seen by one handle: the log of raw strings passed
to ser.write (terminator included) and the bytes currently waiting in the
input buffer (modelled as already-decoded text). -/
structure SerialState where
  written : List String
  buffer : String
deriving DecidableEq

/-- The instrument at the far end of the cable: given the whole write
history (most recent last) it yields the bytes it adds to the input
buffer after that write.  A command that provokes no reply yields "". -/
def Device : Type := List String → String

/-- A fresh port: nothing written, empty input buffer. -/
def initialSerialState : SerialState := { written := [], buffer := "" }

/-- Source lines 85-89, write_to_serial: appends the line terminator to
the input string and writes the result to the port; the device may queue
a reply in the input buffer. -/
def write_to_serial (dev : Device) (s : SerialState) (string : String) : SerialState :=
  let serialcmd := string ++ line_terminator
  { written := s.written ++ [serialcmd],
    buffer := s.buffer ++ dev (s.written ++ [serialcmd]) }

/-- Source lines 91-101, read_from_serial: drains the input buffer one
byte at a time until it is empty, decodes, and strips leading and
trailing whitespace (Python str.strip). -/
def read_from_serial (s : SerialState) : String × SerialState :=
  (pyStrip s.buffer, { s with buffer := "" })

/-- Source line 110, the condition guarding the diagnostic print inside
query_serial: the error-queue response is logged when it is non-empty,
not None (a read always returns a string, so that conjunct is vacuous)
and not exactly +0,"No error". -/
def error_response_is_logged (error : String) : Bool :=
  (error != "") && (error != "+0,\"No error\"")

/-- What query_serial returns, together with the port state it leaves
behind and whether the debug branch printed an error. -/
structure QueryResult where
  response : String
  state : SerialState
  errorLogged : Bool
deriving DecidableEq

/-- Source lines 103-113, query_serial: write the command, read the
response; with debug enabled additionally query :SYST:ERR? and log any
response that error_response_is_logged accepts; return the first read. -/
def query_serial (dev : Device) (s : SerialState) (string : String) : QueryResult :=
  let s1 := write_to_serial dev s string
  let r := read_from_serial s1
  if debug then
    let s3 := write_to_serial dev r.2 ":SYST:ERR?"
    let e := read_from_serial s3
    { response := r.1, state := e.2, errorLogged := error_response_is_logged e.1 }
  else
    { response := r.1, state := r.2, errorLogged := false }

/-- Source lines 19-21: the static multimeter identity list. -/
def multimeters : List String :=
  ["HEWLETT-PACKARD,34401A,0,11-5-2",
   "HEWLETT-PACKARD,34401A,0,10-5-2"]

/-- Source lines 23-24: the static function-generator identity list. -/
def function_generators : List String :=
  ["HEWLETT-PACKARD,33120A,0,10.0-5.0-1.0"]

/-- Source lines 26-27: the static power-supply identity list. -/
def power_supplies : List String :=
  ["Agilent Technologies,E3646A,0,1.4-5.0-1.0"]

/-- The category of specialized handle classify_instrument constructs. -/
inductive InstrumentClass
  | multimeter
  | functionGenerator
  | powerSupply
deriving DecidableEq

/-- Source lines 70-83, classify_instrument: looks the cached identity
string up in the three static lists, in the order multimeter, function
generator, power supply, and returns the matching category; None when no
list contains it. -/
def classify_instrument (identity : String) : Option InstrumentClass :=
  if identity ∈ multimeters then some InstrumentClass.multimeter
  else if identity ∈ function_generators then some InstrumentClass.functionGenerator
  else if identity ∈ power_supplies then some InstrumentClass.powerSupply
  else none

end SerialInstrument

namespace PowerSupply

open SerialInstrument

/-- Source line 29: outputs = Enum(outputs, out1 out2). -/
inductive outputs
  | out1
  | out2
deriving DecidableEq

/-- Source line 30: voltage_range = Enum(voltage_range, low high). -/
inductive voltage_range
  | low
  | high
deriving DecidableEq

/-- The distinct serial writes the power-supply methods emit
(set_output_voltage and set_output_current, source lines 229-260):
volt_rang r for ":volt:rang low" or ":volt:rang high", outp_stat_on for
":outp:stat on", inst_sel p for ":inst:sel out1" or ":inst:sel out2",
volt v for ":volt " followed by the value, curr v likewise. -/
inductive PSWrite
  | volt_rang (r : voltage_range)
  | outp_stat_on
  | inst_sel (p : outputs)
  | volt (v : ℚ)
  | curr (v : ℚ)
deriving DecidableEq

/-- Source lines 219-221, the cache a PowerSupply.__init__ sets up:
_output_state (a dict keyed by the two outputs), _selected_output and
_voltage_output_range (None meaning unset). -/
structure PowerSupplyState where
  output_state : outputs → Bool
  selected_output : Option outputs
  voltage_output_range : Option voltage_range

/-- The cache of a freshly constructed power supply (source lines
219-221): both outputs recorded disabled, no selection, no range.
(The constructor also writes *RST on the wire, source line 222; that
write precedes any set_output_voltage call and is not part of the
writes those calls emit.) -/
def powerSupplyInitState : PowerSupplyState :=
  { output_state := fun _ => false,
    selected_output := none,
    voltage_output_range := none }

/-- Source lines 229-245, set_output_voltage: range write when the target
range (low when the absolute value of the voltage is below 8.0, high
otherwise) differs from the cached range, updating the cache; output-on
write when the cached enabled flag of the port is False, never updating
that flag; select write when the cached selection differs, updating it;
always the voltage write.  Returns the new cache and the emitted writes,
in emission order. -/
def set_output_voltage (s : PowerSupplyState) (output_voltage : ℚ)
    (output_port : outputs) : PowerSupplyState × List PSWrite :=
  let rangeStep : PowerSupplyState × List PSWrite :=
    if |output_voltage| < 8 ∧ s.voltage_output_range ≠ some voltage_range.low then
      ({ s with voltage_output_range := some voltage_range.low },
        [PSWrite.volt_rang voltage_range.low])
    else if 8 ≤ |output_voltage| ∧ s.voltage_output_range ≠ some voltage_range.high then
      ({ s with voltage_output_range := some voltage_range.high },
        [PSWrite.volt_rang voltage_range.high])
    else (s, [])
  let s1 := rangeStep.1
  let onWrites : List PSWrite :=
    if s1.output_state output_port = false then [PSWrite.outp_stat_on] else []
  let selStep : PowerSupplyState × List PSWrite :=
    if s1.selected_output ≠ some output_port then
      ({ s1 with selected_output := some output_port }, [PSWrite.inst_sel output_port])
    else (s1, [])
  (selStep.1, rangeStep.2 ++ onWrites ++ selStep.2 ++ [PSWrite.volt output_voltage])

/-- Source lines 247-260, set_output_current: first forces the voltage
to 20.0 on the target port through set_output_voltage, then repeats the
output-on and selection checks, then always emits the current write. -/
def set_output_current (s : PowerSupplyState) (output_current : ℚ)
    (output_port : outputs) : PowerSupplyState × List PSWrite :=
  let vstep := set_output_voltage s 20 output_port
  let s1 := vstep.1
  let onWrites : List PSWrite :=
    if s1.output_state output_port = false then [PSWrite.outp_stat_on] else []
  let selStep : PowerSupplyState × List PSWrite :=
    if s1.selected_output ≠ some output_port then
      ({ s1 with selected_output := some output_port }, [PSWrite.inst_sel output_port])
    else (s1, [])
  (selStep.1, vstep.2 ++ onWrites ++ selStep.2 ++ [PSWrite.curr output_current])

end PowerSupply

namespace PyFloat

/-- The numeric value of a digit list read in base ten (helper for the
model of the Python float builtin). -/
def digitsVal (cs : List Char) : Nat :=
  cs.foldl (fun a c => a * 10 + (c.toNat - 48)) 0

/-- Consumes one optional leading sign, yielding the sign and the rest. -/
def parseSign : List Char → Int × List Char
  | '+' :: cs => (1, cs)
  | '-' :: cs => (-1, cs)
  | cs => (1, cs)

/-- Parses an unsigned decimal mantissa: digits, optionally with one
decimal point, at least one digit overall (so "1", "1.", ".5" and
"1.25" parse and "", "." and "bad" do not).  Yields the digit string
read as a natural number together with the number of fractional digits,
so the mantissa value is the first component over ten to the second
(all arithmetic stays inside Nat so that the kernel can evaluate it). -/
def parseUnsignedMantissa (cs : List Char) : Option (Nat × Nat) :=
  match cs.span (fun c => c ≠ '.') with
  | (intPart, []) =>
    if intPart ≠ [] ∧ intPart.all Char.isDigit then some (digitsVal intPart, 0) else none
  | (intPart, _dot :: fracPart) =>
    if (intPart ++ fracPart) ≠ [] ∧ intPart.all Char.isDigit ∧ fracPart.all Char.isDigit then
      some (digitsVal intPart * 10 ^ fracPart.length + digitsVal fracPart, fracPart.length)
    else none

/-- Parses a signed mantissa with an optional exponent part introduced
by the letter e or E (itself a signed digit string), and assembles the
rational value. -/
def pyFloatCore (cs : List Char) : Option ℚ :=
  let signed := parseSign cs
  match signed.2.span (fun c => c ≠ 'e' ∧ c ≠ 'E') with
  | (mant, []) =>
    (parseUnsignedMantissa mant).map
      (fun mf => ((signed.1 * (mf.1 : Int) : Int) : ℚ) / ((10 : ℚ) ^ mf.2))
  | (mant, _e :: expPart) =>
    let esigned := parseSign expPart
    if esigned.2 ≠ [] ∧ esigned.2.all Char.isDigit then
      (parseUnsignedMantissa mant).map
        (fun mf => ((signed.1 * (mf.1 : Int) : Int) : ℚ) / ((10 : ℚ) ^ mf.2)
          * (10 : ℚ) ^ (esigned.1 * (digitsVal esigned.2 : Int)))
    else none

/-- Model of the Python float builtin applied to a string, restricted to
the finite decimal and scientific literals the instrument responses use:
surrounding whitespace is ignored, and a string outside the grammar
yields none (float raises ValueError there). -/
def pyFloat (s : String) : Option ℚ := pyFloatCore (SerialInstrument.pyStrip s).data

end PyFloat

namespace Multimeter

open SerialInstrument PyFloat

/-- Source lines 179-181, configure_vdc: writes the DC-voltage
configuration command built from the range and resolution arguments. -/
def configure_vdc (dev : Device) (st : SerialState) (rng res : String) : SerialState :=
  write_to_serial dev st (":conf:volt:dc " ++ rng ++ "," ++ res)

/-- Source lines 196-198, configure_adc: writes the DC-current
configuration command built from the range and resolution arguments. -/
def configure_adc (dev : Device) (st : SerialState) (rng res : String) : SerialState :=
  write_to_serial dev st (":conf:curr:dc " ++ rng ++ "," ++ res)

/-- A measurement result: a single number when the sample count is one,
otherwise the list of parsed samples in response order. -/
abbrev MeasureResult : Type := ℚ ⊕ List ℚ

/-- Source lines 183-194, measure_vdc: configure, write the sample
count, query read?.  When samp == 1 parse the whole response as one
float; otherwise split the response on commas and parse every field,
in order.  A field the float builtin rejects raises ValueError,
modelled as Except.error. -/
def measure_vdc (dev : Device) (st : SerialState) (rng res : String) (samp : Int) :
    Except String (MeasureResult × SerialState) :=
  let st1 := configure_vdc dev st rng res
  let st2 := write_to_serial dev st1 (":samp:coun " ++ toString samp)
  let q := query_serial dev st2 "read?"
  if samp = 1 then
    match pyFloat q.response with
    | some v => Except.ok (Sum.inl v, q.state)
    | none => Except.error ("could not convert string to float: " ++ q.response)
  else
    match ((pySplit q.response (Char.ofNat 44)).mapM pyFloat) with
    | some vs => Except.ok (Sum.inr vs, q.state)
    | none => Except.error "could not convert string to float"

/-- Source lines 200-211, measure_adc: identical to measure_vdc except
for the configuration command and the final query being about current. -/
def measure_adc (dev : Device) (st : SerialState) (rng res : String) (samp : Int) :
    Except String (MeasureResult × SerialState) :=
  let st1 := configure_adc dev st rng res
  let st2 := write_to_serial dev st1 (":samp:coun " ++ toString samp)
  let q := query_serial dev st2 "read?"
  if samp = 1 then
    match pyFloat q.response with
    | some v => Except.ok (Sum.inl v, q.state)
    | none => Except.error ("could not convert string to float: " ++ q.response)
  else
    match ((pySplit q.response (Char.ofNat 44)).mapM pyFloat) with
    | some vs => Except.ok (Sum.inr vs, q.state)
    | none => Except.error "could not convert string to float"

/-- Projects a measurement outcome to its value, discarding the port
state; none when the call raised. -/
def measured (r : Except String (MeasureResult × SerialState)) : Option MeasureResult :=
  match r with
  | Except.ok x => some x.1
  | Except.error _ => none

/-- A device that replies to the read? query with the fixed string resp
and stays silent after every other write (commands provoke no reply;
its error queue is empty). -/
def mmDevice (resp : String) : Device := fun ws =>
  if ws.getLast? = some ("read?" ++ line_terminator) then resp else ""

end Multimeter

namespace SerialInstrument

/-- A pySerial port object as the handle sees it: whether it is
currently open, plus the wire-level state. -/
structure SerialPort where
  isOpen : Bool
  state : SerialState
deriving DecidableEq

/-- The ambient pySerial library and hardware: openPort models the
serial.Serial constructor called with a port identifier (which opens
the port at once and raises on failure, modelled with Except), reopen
models the open method of an existing Serial object, and dev is the
instrument at the far end. -/
structure SerialEnv where
  openPort : String → Except String SerialPort
  reopen : SerialPort → Except String SerialPort
  dev : Device

/-- What a successful SerialInstrument.__init__ leaves behind: the port
and the cached identity string. -/
structure Handle where
  isOpen : Bool
  state : SerialState
  identity : String

/-- Source lines 34-61, SerialInstrument.__init__ with the default
framing arguments: resolve the port object (an adopted ser if given,
else serial.Serial on the port identifier, which raises on failure and
is wrapped in no try block; a missing port and ser raises at the
isOpen call); if the object is not open, try ser.open() and swallow any
failure with a print; then write :SYST:REM, with debug on and a port
identifier given write the :DISP:TEXT command showing the identifier
without its first five characters, and finally query *IDN? and cache
the response as the identity. -/
def serialInstrument_init (env : SerialEnv) (port : Option String)
    (ser : Option SerialPort) : Except String Handle :=
  let serResult : Except String SerialPort :=
    match ser with
    | none =>
      match port with
      | none => Except.error "AttributeError: NoneType object has no attribute isOpen"
      | some p => env.openPort p
    | some s => Except.ok s
  match serResult with
  | Except.error e => Except.error e
  | Except.ok s0 =>
    let s1 : SerialPort :=
      if s0.isOpen = false then
        match env.reopen s0 with
        | Except.ok s => s
        | Except.error _ => s0
      else s0
    let st1 := write_to_serial env.dev s1.state ":SYST:REM"
    let st2 :=
      match port with
      | some p =>
        if debug then
          write_to_serial env.dev st1 (":DISP:TEXT \x27" ++ (p.drop 5) ++ "\x27")
        else st1
      | none => st1
    let q := query_serial env.dev st2 "*IDN?"
    Except.ok { isOpen := s1.isOpen, state := q.state, identity := q.response }

/-- Modelled from the spec (section 8): the value ReadLine returns when
performed immediately after WriteLine(cmd), the right-hand side of the
Query equivalence. -/
def spec_writeline_then_readline (dev : Device) (s : SerialState) (cmd : String) : String :=
  (read_from_serial (write_to_serial dev s cmd)).1

/-- The error-queue response the debug branch of query_serial reads:
after the command write and the first read, write :SYST:ERR? and read
again. -/
def error_queue_response (dev : Device) (s : SerialState) (cmd : String) : String :=
  (read_from_serial
    (write_to_serial dev (read_from_serial (write_to_serial dev s cmd)).2 ":SYST:ERR?")).1

/-- A device whose error queue reports a fault: it answers the
:SYST:ERR? query with a SCPI error record and stays silent otherwise. -/
def faultyDevice : Device := fun ws =>
  if ws.getLast? = some (":SYST:ERR?" ++ line_terminator) then "-113,\"Undefined header\"" else ""

/-- An environment whose single serial port cannot be opened: the
serial.Serial constructor always raises. -/
def failingEnv : SerialEnv :=
  { openPort := fun _ => Except.error "could not open port /dev/ttyUSB0",
    reopen := fun s => Except.ok s,
    dev := fun _ => "" }

end SerialInstrument

/-! ## Helper lemmas shared by the claim theorems -/

namespace PowerSupply

/-- set_output_voltage never touches the per-output enabled cache. -/
theorem set_output_voltage_fst_output_state (s : PowerSupplyState) (v : ℚ) (p : outputs) :
    ((set_output_voltage s v p).1).output_state = s.output_state := by
  simp only [set_output_voltage]
  split_ifs <;> rfl

/-- set_output_current never touches the per-output enabled cache. -/
theorem set_output_current_fst_output_state (s : PowerSupplyState) (v : ℚ) (p : outputs) :
    ((set_output_current s v p).1).output_state = s.output_state := by
  simp only [set_output_current]
  split_ifs <;> simp [set_output_voltage_fst_output_state]

/-- Whenever the enabled cache of the target port reads False,
set_output_voltage emits the output-on command. -/
theorem set_output_voltage_emits_output_on (s : PowerSupplyState) (v : ℚ) (p : outputs)
    (h : s.output_state p = false) :
    PSWrite.outp_stat_on ∈ (set_output_voltage s v p).2 := by
  simp only [set_output_voltage]
  split_ifs <;> simp_all

/-- Whenever the enabled cache of the target port reads False,
set_output_current emits the output-on command. -/
theorem set_output_current_emits_output_on (s : PowerSupplyState) (v : ℚ) (p : outputs)
    (h : s.output_state p = false) :
    PSWrite.outp_stat_on ∈ (set_output_current s v p).2 := by
  have hv := set_output_voltage_fst_output_state s 20 p
  simp only [set_output_current]
  split_ifs <;> simp_all [set_output_voltage_emits_output_on]

end PowerSupply


/-! ## Claim theorems -/

section Claims

open SerialInstrument PowerSupply Multimeter PyFloat

/-- C1, counterexample: on a freshly constructed power supply, after
SetOutputVoltage(5.0, out1), a second call SetOutputVoltage(6.0, out1)
does NOT emit exactly one write (the set-voltage 6.0 command): the
cached enabled flag is still False, so the output-on command is
re-emitted as well. -/
theorem C1_second_call_one_write_counterexample :
    ¬ ((set_output_voltage (set_output_voltage powerSupplyInitState 5 outputs.out1).1
          6 outputs.out1).2
        = [PSWrite.volt 6]) := by decide

/-- C1, amended: on a freshly constructed power supply,
SetOutputVoltage(5.0, out1) emits exactly the four writes range-to-low,
output-on, select out1, set-voltage 5.0 in that order; the second call
SetOutputVoltage(6.0, out1) emits exactly two writes, output-on
followed by set-voltage 6.0, because the enabled cache was never set to
true while range and selection are unchanged. -/
theorem C1_fresh_supply_voltage_writes_amended :
    (set_output_voltage powerSupplyInitState 5 outputs.out1).2
      = [PSWrite.volt_rang voltage_range.low, PSWrite.outp_stat_on,
         PSWrite.inst_sel outputs.out1, PSWrite.volt 5] ∧
    (set_output_voltage (set_output_voltage powerSupplyInitState 5 outputs.out1).1
        6 outputs.out1).2
      = [PSWrite.outp_stat_on, PSWrite.volt 6] := by decide

/-- C2, counterexample: SetOutputVoltage(9.0, out1) immediately after
the calls with 5.0 and 6.0 does NOT emit exactly the two writes
range-to-high and set-voltage 9.0: the output-on command is re-emitted
between them because the enabled cache still reads False. -/
theorem C2_two_write_range_crossing_counterexample :
    ¬ ((set_output_voltage
          (set_output_voltage (set_output_voltage powerSupplyInitState 5 outputs.out1).1
            6 outputs.out1).1 9 outputs.out1).2
        = [PSWrite.volt_rang voltage_range.high, PSWrite.volt 9]) := by decide

/-- C2, amended: SetOutputVoltage(9.0, out1) immediately after the
previous calls emits exactly three writes, range-to-high, output-on and
set-voltage 9.0 in that order: 9.0 crosses the 8.0 range threshold
(range is low when the magnitude is below 8.0, high otherwise), and the
enabled cache still reads False so output-on is re-emitted; the
selection write is skipped since out1 is already selected. -/
theorem C2_range_crossing_writes_amended :
    (set_output_voltage
        (set_output_voltage (set_output_voltage powerSupplyInitState 5 outputs.out1).1
          6 outputs.out1).1 9 outputs.out1).2
      = [PSWrite.volt_rang voltage_range.high, PSWrite.outp_stat_on,
         PSWrite.volt 9] := by decide

/-- C3: the cached per-output enabled flag is never set to true: it is
initialized to false for both outputs, neither SetOutputVoltage nor
SetOutputCurrent ever changes it, and whenever it reads false for the
target port both operations re-emit the output-on command. -/
theorem C3_enabled_cache_never_true :
    (∀ p, powerSupplyInitState.output_state p = false) ∧
    (∀ s v p, ((set_output_voltage s v p).1).output_state = s.output_state) ∧
    (∀ s v p, ((set_output_current s v p).1).output_state = s.output_state) ∧
    (∀ s v p, s.output_state p = false →
      PSWrite.outp_stat_on ∈ (set_output_voltage s v p).2) ∧
    (∀ s v p, s.output_state p = false →
      PSWrite.outp_stat_on ∈ (set_output_current s v p).2) :=
  ⟨fun _ => rfl,
   set_output_voltage_fst_output_state,
   set_output_current_fst_output_state,
   set_output_voltage_emits_output_on,
   set_output_current_emits_output_on⟩

/-- C3 witness: both operations, run on the fresh cache, emit the
output-on command. -/
theorem C3_enabled_cache_never_true_witness :
    PSWrite.outp_stat_on ∈ (set_output_voltage powerSupplyInitState 5 outputs.out1).2 ∧
    PSWrite.outp_stat_on ∈ (set_output_current powerSupplyInitState 3 outputs.out2).2 :=
  ⟨C3_enabled_cache_never_true.2.2.2.1 powerSupplyInitState 5 outputs.out1 (by decide),
   C3_enabled_cache_never_true.2.2.2.2 powerSupplyInitState 3 outputs.out2 (by decide)⟩

/-- C4: classification is a pure function of the identity string: equal
strings classify equally; each signature list maps to its category; a
string in none of the three lists yields none, not an error; and the
three lists are pairwise disjoint. -/
theorem C4_classification_pure_total_disjoint :
    (∀ a b : String, a = b → classify_instrument a = classify_instrument b) ∧
    (∀ s : String, s ∈ multimeters →
      classify_instrument s = some InstrumentClass.multimeter) ∧
    (∀ s : String, s ∈ function_generators →
      classify_instrument s = some InstrumentClass.functionGenerator) ∧
    (∀ s : String, s ∈ power_supplies →
      classify_instrument s = some InstrumentClass.powerSupply) ∧
    (∀ s : String, s ∉ multimeters → s ∉ function_generators → s ∉ power_supplies →
      classify_instrument s = none) ∧
    (∀ s : String, ¬(s ∈ multimeters ∧ s ∈ function_generators)) ∧
    (∀ s : String, ¬(s ∈ multimeters ∧ s ∈ power_supplies)) ∧
    (∀ s : String, ¬(s ∈ function_generators ∧ s ∈ power_supplies)) := by
  refine ⟨fun a b h => by rw [h], ?_, ?_, ?_, ?_, ?_, ?_, ?_⟩
  · intro s h
    fin_cases h <;> decide
  · intro s h
    fin_cases h
    decide
  · intro s h
    fin_cases h
    decide
  · intro s h1 h2 h3
    simp [classify_instrument, h1, h2, h3]
  · intro s h
    obtain ⟨h1, h2⟩ := h
    fin_cases h1 <;> exact absurd h2 (by decide)
  · intro s h
    obtain ⟨h1, h2⟩ := h
    fin_cases h1 <;> exact absurd h2 (by decide)
  · intro s h
    obtain ⟨h1, h2⟩ := h
    fin_cases h1
    exact absurd h2 (by decide)

/-- C4 witness: a known multimeter string classifies as multimeter, and
a string in no list classifies as none. -/
theorem C4_classification_witness :
    classify_instrument "HEWLETT-PACKARD,34401A,0,11-5-2"
      = some InstrumentClass.multimeter ∧
    classify_instrument "ACME,UNKNOWN,0,0" = none :=
  ⟨C4_classification_pure_total_disjoint.2.1 "HEWLETT-PACKARD,34401A,0,11-5-2" (by decide),
   C4_classification_pure_total_disjoint.2.2.2.2.1 "ACME,UNKNOWN,0,0"
     (by decide) (by decide) (by decide)⟩

/-- C5: for every device, port state and command string (the empty
string and strings containing the terminator included), the response
Query returns equals, byte for byte, what ReadLine returns when
performed immediately after WriteLine of the same command. -/
theorem C5_query_equals_write_then_read (dev : Device) (s : SerialState) (cmd : String) :
    (query_serial dev s cmd).response = spec_writeline_then_readline dev s cmd := rfl

/-- C6: MeasureVoltageDC with sampleCount 1 parses the single response
"+1.234560E+00" as the number 1.23456; with sampleCount 3 the response
"1.0,2.0,3.0" yields the ordered list [1.0, 2.0, 3.0]; and the response
"1.0,bad,3.0" fails with a parse error. -/
theorem C6_measure_vdc_parsing :
    measured (measure_vdc (mmDevice "+1.234560E+00") initialSerialState "DEF" "DEF" 1)
      = some (Sum.inl (1.23456 : ℚ)) ∧
    measured (measure_vdc (mmDevice "1.0,2.0,3.0") initialSerialState "DEF" "DEF" 3)
      = some (Sum.inr [1, 2, 3]) ∧
    measured (measure_vdc (mmDevice "1.0,bad,3.0") initialSerialState "DEF" "DEF" 3)
      = none := by
  refine ⟨?_, ?_, ?_⟩ <;>
    simp [measured, measure_vdc, configure_vdc, mmDevice, query_serial, write_to_serial,
      read_from_serial, initialSerialState, debug, line_terminator, pySplit, splitCharsOn,
      List.mapM, List.mapM.loop, pyFloat, pyFloatCore, parseSign, parseUnsignedMantissa,
      digitsVal, pyStrip, List.span, List.span.loop, List.takeWhile, List.dropWhile,
      List.foldl, Char.isDigit, Char.toNat] <;>
    norm_num

/-- C7: constructing an instrument handle from a port identifier fails
(with the transport error the serial library raised) when the port
cannot be opened: the serial.Serial call sits outside every try block,
so the failure reaches the caller instead of being only logged. -/
theorem C7_open_failure_surfaced (env : SerialEnv) (p e : String)
    (h : env.openPort p = Except.error e) :
    serialInstrument_init env (some p) none = Except.error e := by
  simp [serialInstrument_init, h]

/-- C7 witness: in an environment whose port cannot be opened,
construction from a port identifier returns the transport error. -/
theorem C7_open_failure_surfaced_witness :
    serialInstrument_init failingEnv (some "/dev/ttyUSB0") none
      = Except.error "could not open port /dev/ttyUSB0" :=
  C7_open_failure_surfaced failingEnv "/dev/ttyUSB0" "could not open port /dev/ttyUSB0" rfl

/-- C8: after a query with diagnostics enabled, the error-queue
response is logged exactly when it is non-empty and differs from the
string +0,"No error". -/
theorem C8_error_logging_iff (dev : Device) (s : SerialState) (cmd : String) :
    (query_serial dev s cmd).errorLogged = true ↔
      (error_queue_response dev s cmd ≠ "" ∧
        error_queue_response dev s cmd ≠ "+0,\"No error\"") := by
  simp [query_serial, debug, error_response_is_logged, error_queue_response,
    read_from_serial, Bool.and_eq_true, bne_iff_ne]

/-- C8 witness: a device reporting a SCPI fault on :SYST:ERR? gets its
response logged. -/
theorem C8_error_logging_iff_witness :
    (query_serial faultyDevice initialSerialState "*IDN?").errorLogged = true :=
  (C8_error_logging_iff faultyDevice initialSerialState "*IDN?").mpr
    ⟨by decide, by decide⟩

/-- C9: after every set_output_voltage call the cached selection equals
the requested port and the cached range is low when the magnitude of
the value is below 8.0 and high otherwise, whatever was cached before. -/
theorem C9_cache_after_set_voltage (s : PowerSupplyState) (v : ℚ) (p : outputs) :
    ((set_output_voltage s v p).1).selected_output = some p ∧
    ((set_output_voltage s v p).1).voltage_output_range
      = some (if |v| < 8 then voltage_range.low else voltage_range.high) := by
  constructor
  · simp only [set_output_voltage]
    split_ifs <;> simp_all
  · simp only [set_output_voltage]
    split_ifs <;> simp_all [not_lt] <;> linarith

/-- C10: with any sample count other than 1 (0 and negative values
included) both measurement operations take the comma-split branch and
can only return a list; a single-field response yields a one-element
list. -/
theorem C10_nonunit_sample_count (dev : Device) (st : SerialState) (rng res : String)
    (samp : Int) (hsamp : samp ≠ 1) :
    (∀ r, measure_vdc dev st rng res samp = Except.ok r → ∃ vs, r.1 = Sum.inr vs) ∧
    (∀ r, measure_adc dev st rng res samp = Except.ok r → ∃ vs, r.1 = Sum.inr vs) ∧
    measured (measure_vdc (mmDevice "1.0") initialSerialState "DEF" "DEF" 0)
      = some (Sum.inr [1]) ∧
    measured (measure_adc (mmDevice "1.0") initialSerialState "DEF" "DEF" (-2))
      = some (Sum.inr [1]) := by
  refine ⟨?_, ?_, ?_, ?_⟩
  · intro r hr
    simp only [measure_vdc, if_neg hsamp] at hr
    split at hr
    · rename_i vs heq
      cases hr
      exact ⟨vs, rfl⟩
    · cases hr
  · intro r hr
    simp only [measure_adc, if_neg hsamp] at hr
    split at hr
    · rename_i vs heq
      cases hr
      exact ⟨vs, rfl⟩
    · cases hr
  · simp [measured, measure_vdc, configure_vdc, mmDevice, query_serial, write_to_serial,
      read_from_serial, initialSerialState, debug, line_terminator, pySplit, splitCharsOn,
      List.mapM, List.mapM.loop, pyFloat, pyFloatCore, parseSign, parseUnsignedMantissa,
      digitsVal, pyStrip, List.span, List.span.loop, List.takeWhile, List.dropWhile,
      List.foldl, Char.isDigit, Char.toNat]
    norm_num
  · simp [measured, measure_adc, configure_adc, mmDevice, query_serial, write_to_serial,
      read_from_serial, initialSerialState, debug, line_terminator, pySplit, splitCharsOn,
      List.mapM, List.mapM.loop, pyFloat, pyFloatCore, parseSign, parseUnsignedMantissa,
      digitsVal, pyStrip, List.span, List.span.loop, List.takeWhile, List.dropWhile,
      List.foldl, Char.isDigit, Char.toNat]
    norm_num

/-- C10 witness: sample count 0 on a single-field response yields a
one-element list. -/
theorem C10_nonunit_sample_count_witness :
    measured (measure_vdc (mmDevice "1.0") initialSerialState "DEF" "DEF" 0)
      = some (Sum.inr [1]) :=
  (C10_nonunit_sample_count (mmDevice "1.0") initialSerialState "DEF" "DEF" 0
    (by decide)).2.2.1

end Claims
